import Mathlib

/-!
Verification of the DiscourseCrawler incremental crawl engine against its
natural-language specification.  The definitions below are a shallow embedding
of `src/database.ts` and `src/crawling.ts` (the implementation the entry point
`src/index.ts` loads): the persistence layer becomes a record of row lists with
explicit sequence counters, timestamps become integers (the numeric order
JavaScript `Date` comparison uses), JSON payloads become parsed records holding
exactly the fields the code ever extracts, and the remote service becomes an
explicit oracle passed to the crawling functions.
-/

namespace DiscourseCrawler

/-- Timestamps are modelled as integers (milliseconds since the epoch), which
matches the numeric comparison JavaScript performs on `Date` objects. -/
abbrev Timestamp := Int

/-- Parsed view of a post JSON payload.  `updatePostIfEdited`
(database.ts:511-550) extracts exactly `version`, `updated_at` and
`created_at`; the rest of the payload is carried opaquely in `body`. -/
structure PostJson where
  version : Option Int
  updated_at : Option Timestamp
  created_at : Option Timestamp
  body : String
deriving Repr, DecidableEq

/-- Parsed view of a topic JSON document: the raw payload plus the
`created_at` field that `getLatestTopicTimestamp` (database.ts:444-457)
extracts from the stored `topic_json` column. -/
structure TopicDoc where
  raw : String
  created_at : Option Timestamp
deriving Repr, DecidableEq

/-- Row of the `forum` table (database.ts:44-48). -/
structure ForumRow where
  id : Nat
  url : String
  categories_crawled : Bool
deriving Repr, DecidableEq

/-- Row of the `category` table (database.ts:61-70). -/
structure CategoryRow where
  id : Nat
  category_id : Nat
  forum_id : Nat
  topic_url : String
  json : String
  pages_crawled : Bool
deriving Repr, DecidableEq

/-- Row of the `page` table (database.ts:74-82). -/
structure PageRow where
  id : Nat
  page_id : Nat
  category_id : Nat
  more_topics_url : Option String
  json : String
deriving Repr, DecidableEq

/-- Row of the `topic` table (database.ts:86-96). -/
structure TopicRow where
  id : Nat
  topic_id : Nat
  category_id : Nat
  page_excerpt_json : String
  topic_json : TopicDoc
  posts_crawled : Bool
  last_crawled_at : Option Timestamp
deriving Repr, DecidableEq

/-- Row of the `post` table (database.ts:100-107). -/
structure PostRow where
  id : Nat
  post_id : Nat
  topic_id : Nat
  json : PostJson
deriving Repr, DecidableEq

/-- The keyed store: one list per table plus the `nextval` sequence counters
the schema declares for the surrogate primary keys. -/
structure DB where
  forums : List ForumRow
  categories : List CategoryRow
  pages : List PageRow
  topics : List TopicRow
  posts : List PostRow
  forum_seq : Nat
  category_seq : Nat
  page_seq : Nat
  topic_seq : Nat
  post_seq : Nat
deriving Repr, DecidableEq

/-- Errors surfaced by the embedded operations: a violated UNIQUE constraint on
insert, a failed remote fetch (carrying an opaque code that identifies the
underlying transport failure), or exhaustion of the fuel that bounds the
source's unbounded while-loops (a modelling artifact only; every theorem
supplies enough fuel for it never to occur). -/
inductive Err
  | uniqueViolation
  | fetchFailed (code : Nat)
  | fuelExhausted
deriving Repr, DecidableEq

/-! ### Persistence layer (database.ts) -/

/-- Database.findForum (database.ts:119-134): first row with the given url. -/
def findForum (db : DB) (url : String) : Option ForumRow :=
  (db.forums.filter fun f => f.url = url).head?

/-- Database.createForum (database.ts:141-153): plain INSERT .. RETURNING. -/
def createForum (db : DB) (url : String) (categoriesCrawled : Bool) :
    DB × ForumRow :=
  let row : ForumRow := ⟨db.forum_seq, url, categoriesCrawled⟩
  ({ db with forums := db.forums ++ [row], forum_seq := db.forum_seq + 1 }, row)

/-- The subset of forum columns Database.updateForum handles. -/
structure ForumPatch where
  url : Option String
  categories_crawled : Option Bool
deriving Repr, DecidableEq

/-- Database.updateForum (database.ts:160-187).  The Bool reports whether an
UPDATE statement was executed: with no handled field present the function
returns before touching the store. -/
def updateForum (db : DB) (id : Nat) (data : ForumPatch) : DB × Bool :=
  if data.url = none ∧ data.categories_crawled = none then (db, false)
  else
    ({ db with
        forums := db.forums.map fun f =>
          if f.id = id then
            { f with
              url := data.url.getD f.url
              categories_crawled :=
                data.categories_crawled.getD f.categories_crawled }
          else f },
      true)

/-- Database.findCategoriesByForumId (database.ts:194-205): stored order. -/
def findCategoriesByForumId (db : DB) (forumId : Nat) : List CategoryRow :=
  db.categories.filter fun c => c.forum_id = forumId

/-- Database.findCategoryByCategoryIdAndForumId (database.ts:213-230). -/
def findCategoryByCategoryIdAndForumId (db : DB) (categoryId forumId : Nat) :
    Option CategoryRow :=
  (db.categories.filter fun c =>
    c.category_id = categoryId ∧ c.forum_id = forumId).head?

/-- Column values supplied to Database.createCategory. -/
structure CategoryData where
  category_id : Nat
  forum_id : Nat
  topic_url : String
  json : String
  pages_crawled : Bool
deriving Repr, DecidableEq

/-- The INSERT inside Database.createCategory, subject to the schema's
UNIQUE (category_id, forum_id) constraint (database.ts:68). -/
def insertCategory (db : DB) (c : CategoryData) : Except Err (DB × CategoryRow) :=
  if db.categories.any fun r =>
      r.category_id = c.category_id ∧ r.forum_id = c.forum_id then
    .error .uniqueViolation
  else
    let row : CategoryRow :=
      ⟨db.category_seq, c.category_id, c.forum_id, c.topic_url, c.json,
        c.pages_crawled⟩
    .ok ({ db with
            categories := db.categories ++ [row],
            category_seq := db.category_seq + 1 },
         row)

/-- Database.createCategory (database.ts:237-263): find by the natural key
(category_id, forum_id), return the existing row if present, insert otherwise. -/
def createCategory (db : DB) (c : CategoryData) : Except Err (DB × CategoryRow) :=
  match findCategoryByCategoryIdAndForumId db c.category_id c.forum_id with
  | some existing => .ok (db, existing)
  | none => insertCategory db c

/-- The subset of category columns Database.updateCategory handles. -/
structure CategoryPatch where
  topic_url : Option String
  json : Option String
  pages_crawled : Option Bool
deriving Repr, DecidableEq

/-- Database.updateCategory (database.ts:265-297); Bool as in `updateForum`. -/
def updateCategory (db : DB) (id : Nat) (data : CategoryPatch) : DB × Bool :=
  if data.topic_url = none ∧ data.json = none ∧ data.pages_crawled = none then
    (db, false)
  else
    ({ db with
        categories := db.categories.map fun c =>
          if c.id = id then
            { c with
              topic_url := data.topic_url.getD c.topic_url
              json := data.json.getD c.json
              pages_crawled := data.pages_crawled.getD c.pages_crawled }
          else c },
      true)

/-- Database.findTopicByCategoryIdAndTopicId (database.ts:305-322). -/
def findTopicByCategoryIdAndTopicId (db : DB) (categoryId topicId : Nat) :
    Option TopicRow :=
  (db.topics.filter fun t =>
    t.category_id = categoryId ∧ t.topic_id = topicId).head?

/-- Database.getTopicsByCategoryId (database.ts:324-336):
topics of the category ordered by descending remote topic id. -/
def getTopicsByCategoryId (db : DB) (categoryId : Nat) : List TopicRow :=
  ((db.topics.filter fun t => t.category_id = categoryId).mergeSort
    fun a b => Nat.ble b.topic_id a.topic_id)

/-- Column values supplied to Database.createTopic. -/
structure TopicData where
  topic_id : Nat
  category_id : Nat
  page_excerpt_json : String
  topic_json : TopicDoc
  posts_crawled : Bool
deriving Repr, DecidableEq

/-- The INSERT inside Database.createTopic, subject to the schema's
UNIQUE (category_id, topic_id) constraint (database.ts:94). -/
def insertTopic (db : DB) (t : TopicData) : Except Err (DB × TopicRow) :=
  if db.topics.any fun r =>
      r.category_id = t.category_id ∧ r.topic_id = t.topic_id then
    .error .uniqueViolation
  else
    let row : TopicRow :=
      ⟨db.topic_seq, t.topic_id, t.category_id, t.page_excerpt_json,
        t.topic_json, t.posts_crawled, none⟩
    .ok ({ db with
            topics := db.topics ++ [row],
            topic_seq := db.topic_seq + 1 },
         row)

/-- Database.createTopic (database.ts:343-369).  The source passes
`topic.category_id` for BOTH arguments of the existence check
(database.ts:344-347), so the lookup queries the pair
(category_id, category_id) instead of the natural key
(category_id, topic_id); the embedding keeps that faithfully. -/
def createTopic (db : DB) (t : TopicData) : Except Err (DB × TopicRow) :=
  match findTopicByCategoryIdAndTopicId db t.category_id t.category_id with
  | some existing => .ok (db, existing)
  | none => insertTopic db t

/-- The category columns Database.updateTopic handles, plus `last_crawled_at`,
which the interface type would admit but the implementation silently ignores
(database.ts:376-408 checks only the three JSON/flag fields). -/
structure TopicPatch where
  page_excerpt_json : Option String
  topic_json : Option TopicDoc
  posts_crawled : Option Bool
  last_crawled_at : Option Timestamp
deriving Repr, DecidableEq

/-- Database.updateTopic (database.ts:376-408); Bool as in `updateForum`.
Note `last_crawled_at` never contributes a SET clause. -/
def updateTopic (db : DB) (id : Nat) (data : TopicPatch) : DB × Bool :=
  if data.page_excerpt_json = none ∧ data.topic_json = none ∧
      data.posts_crawled = none then
    (db, false)
  else
    ({ db with
        topics := db.topics.map fun t =>
          if t.id = id then
            { t with
              page_excerpt_json := data.page_excerpt_json.getD t.page_excerpt_json
              topic_json := data.topic_json.getD t.topic_json
              posts_crawled := data.posts_crawled.getD t.posts_crawled }
          else t },
      true)

/-- Database.updateTopicLastCrawled (database.ts:414-423): stamps
`last_crawled_at` with the current time. -/
def updateTopicLastCrawled (db : DB) (id : Nat) (now : Timestamp) : DB :=
  { db with
      topics := db.topics.map fun t =>
        if t.id = id then { t with last_crawled_at := some now } else t }

/-- Database.getLatestTopicTimestamp (database.ts:444-457): greatest
`created_at` extracted from stored topic documents of the forum. -/
def getLatestTopicTimestamp (db : DB) (forumId : Nat) : Option Timestamp :=
  let stamps := (db.topics.filter fun t =>
      db.categories.any fun c => c.id = t.category_id ∧ c.forum_id = forumId).filterMap
    fun t => t.topic_json.created_at
  stamps.foldl (fun acc s =>
    match acc with
    | none => some s
    | some m => some (max m s)) none

/-- Database.findPostByPostIdAndTopicId (database.ts:465-479). -/
def findPostByPostIdAndTopicId (db : DB) (postId topicId : Nat) : Option PostRow :=
  (db.posts.filter fun p => p.post_id = postId ∧ p.topic_id = topicId).head?

/-- Column values supplied to Database.createPost. -/
structure PostData where
  post_id : Nat
  topic_id : Nat
  json : PostJson
deriving Repr, DecidableEq

/-- The INSERT inside Database.createPost, subject to the schema's
UNIQUE (topic_id, post_id) constraint (database.ts:105). -/
def insertPost (db : DB) (p : PostData) : Except Err (DB × PostRow) :=
  if db.posts.any fun r => r.topic_id = p.topic_id ∧ r.post_id = p.post_id then
    .error .uniqueViolation
  else
    let row : PostRow := ⟨db.post_seq, p.post_id, p.topic_id, p.json⟩
    .ok ({ db with posts := db.posts ++ [row], post_seq := db.post_seq + 1 },
         row)

/-- Database.createPost (database.ts:486-503): find by the natural key
(post_id, topic_id), return the existing row if present, insert otherwise. -/
def createPost (db : DB) (p : PostData) : Except Err (DB × PostRow) :=
  match findPostByPostIdAndTopicId db p.post_id p.topic_id with
  | some existing => .ok (db, existing)
  | none => insertPost db p

/-- The SELECT inside Database.updatePostIfEdited: the stored row with the
given surrogate id. -/
def findPostRowById (db : DB) (id : Nat) : Option PostRow :=
  (db.posts.filter fun p => p.id = id).head?

/-- JavaScript `x || 1` on a nullable numeric: both null and 0 are falsy. -/
def jsNumOr1 (v : Option Int) : Int :=
  match v with
  | none => 1
  | some n => if n = 0 then 1 else n

/-- JavaScript `a || b` on two nullable timestamps. -/
def jsOrElse (a b : Option Timestamp) : Option Timestamp :=
  match a with
  | some t => some t
  | none => b

/-- Database.updatePostIfEdited (database.ts:511-550), kept faithful to the
source boolean: the stored JSON is overwritten when
`versionNumber > currentVersion ||
 (editedAt && (currentUpdatedAt || new Date(editedAt) > new Date(currentUpdatedAt)))`.
Because `currentUpdatedAt` appears as a bare truthy test in a disjunction, the
date comparison is only ever evaluated when the stored row has no `updated_at`,
in which case `new Date(null)` is the epoch and the test degenerates to
`editedAt > 0`. -/
def updatePostIfEdited (db : DB) (id : Nat) (incoming : PostJson) : DB × Bool :=
  let versionNumber := jsNumOr1 incoming.version
  let editedAt := jsOrElse incoming.updated_at incoming.created_at
  match findPostRowById db id with
  | none => (db, false)
  | some row =>
    let currentVersion := jsNumOr1 row.json.version
    let currentUpdatedAt := row.json.updated_at
    let laterThanStored : Bool :=
      match editedAt with
      | some e => decide (0 < e)
      | none => false
    let shouldWrite : Bool :=
      decide (currentVersion < versionNumber) ||
        (editedAt.isSome && (currentUpdatedAt.isSome || laterThanStored))
    if shouldWrite then
      ({ db with
          posts := db.posts.map fun p =>
            if p.id = id then { p with json := incoming } else p },
        true)
    else (db, false)

/-- Database.findPageByCategoryIdAndPageId (database.ts:558-573). -/
def findPageByCategoryIdAndPageId (db : DB) (categoryId pageId : Nat) :
    Option PageRow :=
  (db.pages.filter fun p => p.category_id = categoryId ∧ p.page_id = pageId).head?

/-- Column values supplied to Database.createPage. -/
structure PageData where
  page_id : Nat
  category_id : Nat
  more_topics_url : Option String
  json : String
deriving Repr, DecidableEq

/-- The INSERT inside Database.createPage, subject to the schema's
UNIQUE (category_id, page_id) constraint (database.ts:80). -/
def insertPage (db : DB) (p : PageData) : Except Err (DB × PageRow) :=
  if db.pages.any fun r =>
      r.category_id = p.category_id ∧ r.page_id = p.page_id then
    .error .uniqueViolation
  else
    let row : PageRow := ⟨db.page_seq, p.page_id, p.category_id,
      p.more_topics_url, p.json⟩
    .ok ({ db with pages := db.pages ++ [row], page_seq := db.page_seq + 1 },
         row)

/-- Database.createPage (database.ts:580-596): find by the natural key
(category_id, page_id), return the existing row if present, insert otherwise. -/
def createPage (db : DB) (p : PageData) : Except Err (DB × PageRow) :=
  match findPageByCategoryIdAndPageId db p.category_id p.page_id with
  | some existing => .ok (db, existing)
  | none => insertPage db p

/-- Database.getLastPageByCategory (database.ts:603-617): the page of the
category with the greatest page_id, if any. -/
def getLastPageByCategory (db : DB) (categoryId : Nat) : Option PageRow :=
  (db.pages.filter fun p => p.category_id = categoryId).foldl
    (fun acc p =>
      match acc with
      | none => some p
      | some m => if m.page_id < p.page_id then some p else m)
    none

/-! ### Remote service model (the fetch capability behind limitedFetch) -/

/-- One category entry of the categories.json listing. -/
structure RemoteCategory where
  id : Nat
  topic_url : String
  raw : String
deriving Repr, DecidableEq

/-- One topic entry of a listing page's topic_list. -/
structure RemoteTopicRef where
  id : Nat
  raw : String
deriving Repr, DecidableEq

/-- One fetched listing page: the (possibly absent) "more topics" cursor and
the topics the page references, plus the raw payload that gets persisted. -/
structure RemotePage where
  more_topics_url : Option String
  topics : List RemoteTopicRef
  raw : String
deriving Repr, DecidableEq

/-- One incoming post inside a topic document or batch-posts response. -/
structure IncomingPost where
  id : Nat
  json : PostJson
deriving Repr, DecidableEq

/-- A fetched topic document: its payload, the initial post batch
(post_stream.posts) and the manifest of all post ids (post_stream.stream). -/
structure RemoteTopic where
  doc : TopicDoc
  posts : List IncomingPost
  stream : List Nat
deriving Repr, DecidableEq

/-- The remote service as one oracle per endpoint.  URLs are built
deterministically from these arguments in the source, so dispatching on the
structured request loses nothing; `pageFetch` additionally receives the
effective `after` cutoff the source appends to the listing URL. -/
structure Remote where
  categoriesFetch : Except Err (List RemoteCategory)
  pageFetch : Option Timestamp → Nat → Nat → Except Err RemotePage
  topicFetch : Nat → Except Err RemoteTopic
  postsFetch : Nat → List Nat → Except Err (List IncomingPost)

/-- Crawler options (types.ts): the full-crawl flag and the since-date. -/
structure CrawlerOptions where
  fullCrawl : Bool
  sinceDate : Option Timestamp
deriving Repr, DecidableEq

/-! ### Orchestrator (crawling.ts) -/

/-- JavaScript `topicList.more_topics_url || null`: an absent or empty-string
cursor normalises to null (crawling.ts:246). -/
def jsCursorOrNull (c : Option String) : Option String :=
  match c with
  | some s => if s = "" then none else some s
  | none => none

/-- Per-post body of DiscourseCrawler.createPosts (crawling.ts:413-435):
create the post when its natural key is new, otherwise reconcile through
updatePostIfEdited unless a full crawl was requested.  Errors raised by
updatePostIfEdited are caught and logged in the source; the embedded
operation is total.  The unreachable insert-failure arm leaves the store
unchanged (the preceding find guarantees the key is free). -/
def createPostsStep (db : DB) (topicRowId : Nat) (fullCrawl : Bool)
    (post : IncomingPost) : DB :=
  match findPostByPostIdAndTopicId db post.id topicRowId with
  | none =>
    match createPost db ⟨post.id, topicRowId, post.json⟩ with
    | .ok r => r.1
    | .error _ => db
  | some existing =>
    if fullCrawl then db
    else (updatePostIfEdited db existing.id post.json).1

/-- DiscourseCrawler.createPosts (crawling.ts:409-439): reconcile every post of
one response and return the count of posts present in the response
(the source returns `posts.length`, not the number actually written). -/
def createPosts (db : DB) (topicRowId : Nat) (fullCrawl : Bool)
    (posts : List IncomingPost) : DB × Nat :=
  (posts.foldl (fun acc p => createPostsStep acc topicRowId fullCrawl p) db,
   posts.length)

/-- The batch loop of DiscourseCrawler.crawlTopic (crawling.ts:370-386):
while identifiers remain, request up to 20 of them and advance the remaining
list by the count the response reported.  The extra Nat argument counts the
fetches issued; on an uncaught error the partial store and fetch count are
carried on the error side.  Fuel bounds the source's unbounded while-loop. -/
def crawlTopicLoop (remote : Remote) (topicRemoteId topicRowId : Nat)
    (fullCrawl : Bool) :
    Nat → DB → List Nat → Nat → Except (Err × DB × Nat) (DB × Nat)
  | 0, db, remaining, fetches =>
    if remaining.isEmpty then .ok (db, fetches)
    else .error (.fuelExhausted, db, fetches)
  | fuel + 1, db, remaining, fetches =>
    if remaining.isEmpty then .ok (db, fetches)
    else
      let nextPosts := remaining.take 20
      match remote.postsFetch topicRemoteId nextPosts with
      | .error e => .error (e, db, fetches + 1)
      | .ok response =>
        let r := createPosts db topicRowId fullCrawl response
        crawlTopicLoop remote topicRemoteId topicRowId fullCrawl fuel r.1
          (remaining.drop r.2) (fetches + 1)

/-- The try-block of DiscourseCrawler.crawlTopic (crawling.ts:346-391): fetch
the topic document, persist its JSON, reconcile the initial batch, drain the
manifest in batches, stamp last_crawled_at, and finally mark posts_crawled on a
first pass.  The `posts_after` branch (crawling.ts:350-357) only alters the
fetched URL and its guard `topic.posts_crawled && !fullCrawl` is unsatisfiable
under the enclosing `!topic.posts_crawled` check, so it contributes nothing.
On an error the partial store and fetch count travel on the error side. -/
def crawlTopicBody (remote : Remote) (fuel : Nat) (opts : CrawlerOptions)
    (db : DB) (t : TopicRow) (now : Timestamp) :
    Except (Err × DB × Nat) (DB × Nat) :=
  match remote.topicFetch t.topic_id with
  | .error e => .error (e, db, 1)
  | .ok jt =>
    let db1 := (updateTopic db t.id ⟨none, some jt.doc, none, none⟩).1
    let r := createPosts db1 t.id opts.fullCrawl jt.posts
    match crawlTopicLoop remote t.topic_id t.id opts.fullCrawl fuel r.1
        (jt.stream.drop r.2) 1 with
    | .error e => .error e
    | .ok (db3, fetches) =>
      let db4 := updateTopicLastCrawled db3 t.id now
      let db5 :=
        if !t.posts_crawled then (updateTopic db4 t.id ⟨none, none, some true, none⟩).1
        else db4
      .ok (db5, fetches)

/-- DiscourseCrawler.crawlTopic (crawling.ts:342-400): topics already marked
posts_crawled are not processed at all; otherwise the body runs under a
try/catch that logs and swallows any exception, keeping the partial effects.
The Nat result counts the fetches issued for this topic. -/
def crawlTopic (remote : Remote) (fuel : Nat) (opts : CrawlerOptions)
    (db : DB) (t : TopicRow) (now : Timestamp) : DB × Nat :=
  if !t.posts_crawled then
    match crawlTopicBody remote fuel opts db t now with
    | .ok r => r
    | .error (_, db2, fetches) => (db2, fetches)
  else (db, 0)

/-- The skip rule of DiscourseCrawler.crawlTopics (crawling.ts:297-312): an
already-crawled topic is skipped outside full crawls, except that a since-date
together with a stored last_crawled_at older than it falls through to a
re-visit attempt. -/
def shouldSkipTopic (opts : CrawlerOptions) (t : TopicRow) : Bool :=
  if t.posts_crawled && !opts.fullCrawl then
    match opts.sinceDate, t.last_crawled_at with
    | some sd, some lc => decide (sd ≤ lc)
    | _, _ => true
  else false

/-- The inner for-loop of DiscourseCrawler.crawlTopics over one category's
topic snapshot; the trace records the surrogate ids of topics handed to
crawlTopic (not skipped). -/
def crawlTopicsOfList (remote : Remote) (fuel : Nat) (opts : CrawlerOptions)
    (now : Timestamp) : List TopicRow → DB × List Nat → DB × List Nat
  | [], acc => acc
  | t :: rest, acc =>
    if shouldSkipTopic opts t then
      crawlTopicsOfList remote fuel opts now rest acc
    else
      let r := crawlTopic remote fuel opts acc.1 t now
      crawlTopicsOfList remote fuel opts now rest (r.1, acc.2 ++ [t.id])

/-- DiscourseCrawler.crawlTopics (crawling.ts:291-316): for every category of
the forum, take the current topic snapshot ordered by descending remote id and
process it with the skip rule. -/
def crawlTopics (remote : Remote) (fuel : Nat) (opts : CrawlerOptions)
    (db : DB) (forumId : Nat) (now : Timestamp) : DB × List Nat :=
  (findCategoriesByForumId db forumId).foldl
    (fun acc c =>
      crawlTopicsOfList remote fuel opts now
        (getTopicsByCategoryId acc.1 c.id) acc)
    (db, [])

/-- Topic creation for one fetched listing page
(crawling.ts:255-270): create each listed topic not already present, errors
propagating out of the awaited calls. -/
def createListedTopics (db : DB) (catRowId : Nat) :
    List RemoteTopicRef → Except Err DB
  | [] => .ok db
  | tr :: rest =>
    match findTopicByCategoryIdAndTopicId db catRowId tr.id with
    | some _ => createListedTopics db catRowId rest
    | none =>
      match createTopic db ⟨tr.id, catRowId, tr.raw, ⟨"", none⟩, false⟩ with
      | .ok r => createListedTopics r.1 catRowId rest
      | .error e => .error e

/-- The effective cutoff DiscourseCrawler.crawlCategory computes
(crawling.ts:202-205): the explicit since-date, else — outside full crawls —
the greatest stored topic-creation timestamp of the forum. -/
def effectiveSinceDate (opts : CrawlerOptions) (db : DB) (forumId : Nat) :
    Option Timestamp :=
  match opts.sinceDate with
  | some sd => some sd
  | none => if opts.fullCrawl then none else getLatestTopicTimestamp db forumId

/-- The loop guard and page-number computation of the pagination while-loop
(crawling.ts:212-239): none when the walk is complete (a stored last page
with no cursor), otherwise the page number to request next — 0 on a fresh
category, the stored page number plus one when continuing from a cursor. -/
def nextPageNumber (lastPage : Option PageRow) : Option Nat :=
  match lastPage with
  | none => some 0
  | some lp =>
    if lp.more_topics_url = none then none else some (lp.page_id + 1)

/-- The pagination while-loop of DiscourseCrawler.crawlCategory
(crawling.ts:212-277).  The trace records each page number fetched, in order,
recorded before the response is examined (each entry is one issued fetch).
Fuel bounds the source's unbounded while-loop. -/
def crawlCategoryLoop (remote : Remote) (since : Option Timestamp)
    (catRemoteId catRowId : Nat) :
    Nat → DB → Option PageRow → List Nat → Except (Err × DB × List Nat) (DB × List Nat)
  | 0, db, _, trace => .error (.fuelExhausted, db, trace)
  | fuel + 1, db, lastPage, trace =>
    match nextPageNumber lastPage with
    | none => .ok (db, trace)
    | some nextPageId =>
      let trace2 := trace ++ [nextPageId]
      match remote.pageFetch since catRemoteId nextPageId with
      | .error e => .error (e, db, trace2)
      | .ok jsonPage =>
        let moreTopicsUrl := jsCursorOrNull jsonPage.more_topics_url
        match createPage db ⟨nextPageId, catRowId, moreTopicsUrl, jsonPage.raw⟩ with
        | .error e => .error (e, db, trace2)
        | .ok (db1, page) =>
          match createListedTopics db1 catRowId jsonPage.topics with
          | .error e => .error (e, db1, trace2)
          | .ok db2 =>
            if moreTopicsUrl = none then .ok (db2, trace2)
            else
              crawlCategoryLoop remote since catRemoteId catRowId fuel db2
                (some page) trace2

/-- DiscourseCrawler.crawlCategory (crawling.ts:199-284): run the pagination
walker unless the category is already pages-done and no full crawl was
requested; on completion mark the category pages-done.  The trace lists the
page numbers fetched. -/
def crawlCategory (remote : Remote) (fuel : Nat) (opts : CrawlerOptions)
    (db : DB) (cat : CategoryRow) : Except (Err × DB × List Nat) (DB × List Nat) :=
  let since := effectiveSinceDate opts db cat.forum_id
  if !cat.pages_crawled || opts.fullCrawl then
    match crawlCategoryLoop remote since cat.category_id cat.id fuel db
        (getLastPageByCategory db cat.id) [] with
    | .error e => .error e
    | .ok (db2, trace) =>
      .ok ((updateCategory db2 cat.id ⟨none, none, some true⟩).1, trace)
  else .ok (db, [])

/-- The category-discovery phase of DiscourseCrawler.crawlForum
(crawling.ts:158-179): on a forum not yet categories-done, fetch the listing
once, create a Category per entry and mark the forum done.  No try/catch
guards this phase; an error travels with the store reached so far. -/
def crawlCategoriesPhase (remote : Remote) (db : DB) (forum : ForumRow) :
    Except (Err × DB) DB :=
  if !forum.categories_crawled then
    match remote.categoriesFetch with
    | .error e => .error (e, db)
    | .ok cats =>
      match cats.foldlM
          (fun d c =>
            match createCategory d ⟨c.id, forum.id, c.topic_url, c.raw, false⟩ with
            | .ok r => Except.ok r.1
            | .error e => Except.error (e, d))
          db with
      | .error e => .error e
      | .ok db1 => .ok (updateForum db1 forum.id ⟨none, some true⟩).1
  else .ok db

/-- The per-category loop of DiscourseCrawler.crawlForum (crawling.ts:184-186):
plain sequential awaits with no try/catch, so the first category failure
propagates out of the run. -/
def crawlCategoriesLoop (remote : Remote) (fuel : Nat) (opts : CrawlerOptions) :
    List CategoryRow → DB → Except (Err × DB) DB
  | [], db => .ok db
  | c :: rest, db =>
    match crawlCategory remote fuel opts db c with
    | .error (e, db2, _) => .error (e, db2)
    | .ok (db2, _) => crawlCategoriesLoop remote fuel opts rest db2

/-- DiscourseCrawler.crawlForum (crawling.ts:154-192): discovery phase, then
every stored category of the forum, then the topic pass.  The topic-pass trace
is returned for inspection. -/
def crawlForum (remote : Remote) (fuel : Nat) (opts : CrawlerOptions)
    (db : DB) (forum : ForumRow) (now : Timestamp) :
    Except (Err × DB) (DB × List Nat) :=
  match crawlCategoriesPhase remote db forum with
  | .error e => .error e
  | .ok db1 =>
    match crawlCategoriesLoop remote fuel opts
        (findCategoriesByForumId db1 forum.id) db1 with
    | .error e => .error e
    | .ok db2 => .ok (crawlTopics remote fuel opts db2 forum.id now)

/-- DiscourseCrawler.resetCrawledState (crawling.ts:103-130): clear the
forum's categories_crawled, clear pages_crawled on every category of the
forum, then one bulk SQL update clearing posts_crawled and last_crawled_at on
every topic whose category belongs to the forum. -/
def resetCrawledState (db : DB) (forum : ForumRow) : DB :=
  let db1 := (updateForum db forum.id ⟨none, some false⟩).1
  let cats := findCategoriesByForumId db1 forum.id
  let db2 := cats.foldl
    (fun d c => (updateCategory d c.id ⟨none, none, some false⟩).1) db1
  { db2 with
      topics := db2.topics.map fun t =>
        if db2.categories.any fun c =>
            c.id = t.category_id ∧ c.forum_id = forum.id then
          { t with posts_crawled := false, last_crawled_at := none }
        else t }

/-- DiscourseCrawler.getForum (crawling.ts:137-147): resolve or create. -/
def getForumOp (db : DB) (url : String) : DB × ForumRow :=
  match findForum db url with
  | some f => (db, f)
  | none => createForum db url false

/-- DiscourseCrawler.crawl (crawling.ts:89-96): resolve the forum, reset on a
full crawl, then crawl it.  Nothing here catches errors. -/
def crawl (remote : Remote) (fuel : Nat) (opts : CrawlerOptions) (db : DB)
    (url : String) (now : Timestamp) : Except (Err × DB) (DB × List Nat) :=
  let r := getForumOp db url
  let db2 := if opts.fullCrawl then resetCrawledState r.1 r.2 else r.1
  crawlForum remote fuel opts db2 r.2 now

/-! ### The rate-limited fetch primitive (crawling.ts:59-84) -/

/-- Outcome of one attempt of limitedFetch: the token bucket denies admission
(carrying its msBeforeNext cooldown), the transport fails (non-2xx or network,
identified by an opaque code), or the GET succeeds. -/
inductive AttemptOutcome
  | denied (msBeforeNext : Option Nat)
  | transport (code : Nat)
  | success (data : String)
deriving Repr, DecidableEq

/-- The JavaScript value limitedFetch throws: `throw Error` (crawling.ts:82)
throws the built-in Error constructor itself — one fixed global value that
carries neither a message nor the original cause. -/
inductive Thrown
  | errorCtor
deriving Repr, DecidableEq

/-- JavaScript `error.msBeforeNext || 60000`: null and 0 fall back to 60s. -/
def jsWaitTime (ms : Option Nat) : Nat :=
  match ms with
  | none => 60000
  | some 0 => 60000
  | some m => m

/-- DiscourseCrawler.limitedFetch (crawling.ts:59-84).  `attempts k` is the
outcome of the k-th attempt.  Returns the result, the list of denial cooldown
sleeps performed (the unconditional per-request pacing delay on the success
path is not traced), and the number of attempts issued.  On a denial the
fetcher always sleeps the reported cooldown, then retries only while the
budget lasts; on a transport failure it raises at once without retrying.
Both failure exits execute `throw Error`, raising the bare constructor. -/
def limitedFetch (attempts : Nat → AttemptOutcome) :
    Nat → Nat → Except Thrown String × List Nat × Nat
  | k, retries + 1 =>
    match attempts k with
    | .success d => (.ok d, [], 1)
    | .transport _ => (.error .errorCtor, [], 1)
    | .denied ms =>
      let w := jsWaitTime ms
      let r := limitedFetch attempts (k + 1) retries
      (r.1, w :: r.2.1, r.2.2 + 1)
  | k, 0 =>
    match attempts k with
    | .success d => (.ok d, [], 1)
    | .transport _ => (.error .errorCtor, [], 1)
    | .denied ms => (.error .errorCtor, [jsWaitTime ms], 1)

/-! ### Concrete stores used by the counterexample and bug-witness theorems -/

/-- Stored post payload: edit-version 2, updated at time 100. -/
def storedPostJson : PostJson := ⟨some 2, some 100, some 50, "stored body"⟩

/-- Incoming snapshot: edit-version 1, updated at the earlier time 60. -/
def olderIncomingJson : PostJson := ⟨some 1, some 60, some 50, "older edit"⟩

/-- Store holding the single post row (id 1) with `storedPostJson`. -/
def dbPostC1 : DB :=
  ⟨[⟨1, "https://forum.example", true⟩],
   [⟨1, 9, 1, "/c/cat", "cat json", true⟩],
   [],
   [⟨1, 3, 1, "excerpt", ⟨"topic doc", none⟩, true, none⟩],
   [⟨1, 7, 1, storedPostJson⟩],
   2, 2, 1, 2, 2⟩

/-- C1.  Per-post edit reconciliation: the claim states the stored JSON is
overwritten iff the incoming version is strictly greater or the incoming edit
timestamp is later, and in particular that a stored post with version 2 is not
overwritten by an incoming post with version 1.  The code disagrees: because
`currentUpdatedAt` is used as a bare truthy disjunct, `updatePostIfEdited`
overwrites the stored row (version 2, updated_at 100) with an incoming snapshot
of lower version 1 and earlier timestamp 60, reporting the write as an update. -/
theorem updatePostIfEdited_overwrites_older_lower_version :
    (updatePostIfEdited dbPostC1 1 olderIncomingJson).2 = true ∧
      (findPostRowById (updatePostIfEdited dbPostC1 1 olderIncomingJson).1 1).map
        PostRow.json = some olderIncomingJson := by
  constructor
  · rfl
  · rfl

/-- Store for the C3 counterexample: one topic row with natural key
(category_id 1, topic_id 2), and no topic whose remote id equals 1. -/
def dbTopicC3 : DB :=
  ⟨[⟨1, "https://forum.example", true⟩],
   [⟨1, 9, 1, "/c/cat", "cat json", false⟩],
   [],
   [⟨1, 2, 1, "excerpt", ⟨"", none⟩, false, none⟩],
   [],
   2, 2, 1, 2, 1⟩

/-- The same topic presented to `createTopic` a second time. -/
def topicDataC3 : TopicData := ⟨2, 1, "excerpt", ⟨"", none⟩, false⟩

/-- C3.  Idempotent discovery: the claim states that creating a Topic whose
natural key (categoryId, remoteTopicId) already exists returns the existing row
and inserts no duplicate.  `createTopic` instead performs its existence check
with `topic.category_id` passed for both arguments, so re-creating the stored
topic (category 1, remote id 2) misses the existing row and the INSERT hits the
UNIQUE (category_id, topic_id) constraint: the call fails instead of returning
the stored row.  (`createCategory` and `createPost` check the correct keys.) -/
theorem createTopic_existing_key_raises :
    createTopic dbTopicC3 topicDataC3 = .error .uniqueViolation := by rfl

/-- No full crawl, since-date 2023-06-01 (dates as comparable integers). -/
def optsSinceJun2023 : CrawlerOptions := ⟨false, some 20230601⟩

/-- No full crawl, since-date 2022-01-01. -/
def optsSinceJan2022 : CrawlerOptions := ⟨false, some 20220101⟩

/-- A topic already marked posts-crawled, last crawled 2023-01-01. -/
def topicCrawledJan2023 : TopicRow :=
  ⟨1, 11, 1, "excerpt", ⟨"doc", none⟩, true, some 20230101⟩

/-- C2.  Since-date override of the topic skip rule: the claim states that a
Topic with postsCrawled=true and lastCrawledAt = 2023-01-01 is re-visited
(its posts fetched and reconciled) under since-date 2023-06-01 and skipped
under since-date 2022-01-01.  The skip rule in crawlTopics indeed falls
through for the earlier lastCrawledAt and skips for the later since-date,
but crawlTopic itself opens with `if (!topic.posts_crawled)`, so the topic it
receives is dropped without a single fetch: the store is returned unchanged
and the fetch count is zero, for every oracle and store.  The claimed
re-visit never happens. -/
theorem sinceDate_revisit_defeated_by_crawlTopic_guard :
    shouldSkipTopic optsSinceJun2023 topicCrawledJan2023 = false ∧
      shouldSkipTopic optsSinceJan2022 topicCrawledJan2023 = true ∧
      ∀ (remote : Remote) (fuel : Nat) (db : DB) (now : Timestamp),
        crawlTopic remote fuel optsSinceJun2023 db topicCrawledJan2023 now
          = (db, 0) := by
  exact ⟨rfl, rfl, fun _ _ _ _ => rfl⟩

/-- C6.  Batch advancement: in the batch loop of the topic post collector,
one iteration with a response containing `response.length` posts advances the
remaining-identifiers list by exactly that returned count — `createPosts`
returns the count of posts present in the response, and the loop recurses on
`remaining.drop` of it, not on the requested batch size (up to 20) — so the
list shrinks by exactly the reported count whenever that count is at most the
list's length. -/
theorem batch_loop_advances_by_returned_count
    (remote : Remote) (topicRemoteId topicRowId : Nat) (fullCrawl : Bool)
    (fuel : Nat) (db : DB) (remaining : List Nat) (fetches : Nat)
    (response : List IncomingPost)
    (hne : remaining ≠ [])
    (hresp : remote.postsFetch topicRemoteId (remaining.take 20) = .ok response) :
    (createPosts db topicRowId fullCrawl response).2 = response.length ∧
      crawlTopicLoop remote topicRemoteId topicRowId fullCrawl (fuel + 1) db
          remaining fetches
        = crawlTopicLoop remote topicRemoteId topicRowId fullCrawl fuel
            (createPosts db topicRowId fullCrawl response).1
            (remaining.drop response.length) (fetches + 1) ∧
      (response.length ≤ remaining.length →
        (remaining.drop response.length).length
          = remaining.length - response.length) := by
  refine ⟨rfl, ?_, fun _ => List.length_drop response.length remaining⟩
  have hempty : remaining.isEmpty = false := by
    cases remaining with
    | nil => exact absurd rfl hne
    | cons a l => rfl
  simp only [crawlTopicLoop, hempty, Bool.false_eq_true, if_false, hresp,
    createPosts]

/-- A store with one topic (surrogate id 3) and no posts, used to witness the
batch-advancement theorem on concrete input. -/
def dbBatchW : DB :=
  ⟨[⟨1, "https://forum.example", true⟩],
   [⟨1, 9, 1, "/c/cat", "cat json", true⟩],
   [],
   [⟨3, 21, 1, "excerpt", ⟨"doc", none⟩, false, none⟩],
   [],
   2, 2, 1, 4, 1⟩

/-- Incoming posts for the batch-advancement witness. -/
def twoPostResponse : List IncomingPost :=
  [⟨101, ⟨some 1, none, some 10, "a"⟩⟩, ⟨102, ⟨some 1, none, some 11, "b"⟩⟩]

/-- An oracle whose batch-posts endpoint reports two posts present whatever
was requested; the other endpoints fail. -/
def remoteBatchW : Remote :=
  ⟨.error (.fetchFailed 0),
   fun _ _ _ => .error (.fetchFailed 0),
   fun _ => .error (.fetchFailed 0),
   fun _ _ => .ok twoPostResponse⟩

theorem batch_loop_advances_by_returned_count_witness :
    ([1, 2, 3, 4, 5] : List Nat) ≠ [] ∧
      remoteBatchW.postsFetch 21 (([1, 2, 3, 4, 5] : List Nat).take 20)
        = .ok twoPostResponse ∧
      ((createPosts dbBatchW 3 false twoPostResponse).2
          = twoPostResponse.length ∧
        crawlTopicLoop remoteBatchW 21 3 false 4 dbBatchW [1, 2, 3, 4, 5] 1
          = crawlTopicLoop remoteBatchW 21 3 false 3
              (createPosts dbBatchW 3 false twoPostResponse).1
              (([1, 2, 3, 4, 5] : List Nat).drop twoPostResponse.length) 2 ∧
        (twoPostResponse.length ≤ ([1, 2, 3, 4, 5] : List Nat).length →
          ((([1, 2, 3, 4, 5] : List Nat)).drop twoPostResponse.length).length
            = ([1, 2, 3, 4, 5] : List Nat).length - twoPostResponse.length)) :=
  ⟨by decide, rfl,
   batch_loop_advances_by_returned_count remoteBatchW 21 3 false 3 dbBatchW
     [1, 2, 3, 4, 5] 1 twoPostResponse (by decide) rfl⟩

/-- Every attempt fails at the transport level (e.g. an HTTP 500). -/
def transportFailAttempts : Nat → AttemptOutcome := fun _ => .transport 500

/-- Every attempt is denied by the bucket, cooldown 5000 ms. -/
def alwaysDeniedAttempts : Nat → AttemptOutcome := fun _ => .denied (some 5000)

/-- C9.  Rate-limited fetch failure behaviour: the retry shape matches the
claim — a transport failure raises at once after a single attempt with no
retry, and a run of denials sleeps the bucket-reported 5000 ms cooldown each
time and retries up to the budget of 3, issuing 4 attempts before raising —
but both failure exits execute `throw Error`, raising the bare built-in Error
constructor: the identical, payload-free value in both scenarios, carrying
neither a FetchError wrapper nor the original cause the claim requires. -/
theorem limitedFetch_raises_bare_error :
    limitedFetch transportFailAttempts 0 3
        = (.error .errorCtor, [], 1) ∧
      limitedFetch alwaysDeniedAttempts 0 3
        = (.error .errorCtor, [5000, 5000, 5000, 5000], 4) :=
  ⟨rfl, rfl⟩

/-- C10.  Implicit no-op updates: updateForum, updateCategory and updateTopic
called with a patch holding none of the fields they handle return before
executing any UPDATE: the store is returned unchanged and the executed-write
flag is false.  For updateTopic this extends to a patch carrying only
`last_crawled_at`, which the implementation does not handle. -/
theorem update_with_empty_patch_is_noop (db : DB) (fid cid tid : Nat)
    (lca : Option Timestamp) :
    updateForum db fid ⟨none, none⟩ = (db, false) ∧
      updateCategory db cid ⟨none, none, none⟩ = (db, false) ∧
      updateTopic db tid ⟨none, none, none, lca⟩ = (db, false) := by
  refine ⟨?_, ?_, ?_⟩ <;> rfl

/-! ### Reset postcondition (C7) -/

/-- Clearing only the categories_crawled flag of one forum row. -/
def clearForumFlag (i : Nat) (fr : ForumRow) : ForumRow :=
  if fr.id = i then { fr with categories_crawled := false } else fr

/-- Clearing only the pages_crawled flag of one category row. -/
def clearCatFlag (c : CategoryRow) : CategoryRow :=
  { c with pages_crawled := false }

/-- Clearing the crawl state of one topic row. -/
def clearTopicFlags (t : TopicRow) : TopicRow :=
  { t with posts_crawled := false, last_crawled_at := none }

lemma updateForum_catsFalse (db : DB) (i : Nat) :
    (updateForum db i ⟨none, some false⟩).1
      = { db with forums := db.forums.map (clearForumFlag i) } := rfl

lemma updateCategory_pagesFalse (db : DB) (i : Nat) :
    (updateCategory db i ⟨none, none, some false⟩).1
      = { db with categories := db.categories.map fun c =>
            if c.id = i then clearCatFlag c else c } := rfl

/-- Folding the per-category pages_crawled reset over a list of category rows
touches exactly the rows whose id appears in the list. -/
lemma foldl_updateCategory_pagesFalse (l : List CategoryRow) (d : DB) :
    l.foldl (fun d2 c => (updateCategory d2 c.id ⟨none, none, some false⟩).1) d
      = { d with categories := d.categories.map fun c =>
            if l.any (fun x => x.id = c.id) then clearCatFlag c else c } := by
  induction l generalizing d with
  | nil => simp
  | cons a t ih =>
    rw [List.foldl_cons, updateCategory_pagesFalse, ih]
    congr 1
    rw [List.map_map]
    have hfg : ((fun c => if (t.any fun x => x.id = c.id) then clearCatFlag c
          else c) ∘ fun c => if c.id = a.id then clearCatFlag c else c)
        = fun c => if ((a :: t).any fun x => x.id = c.id) then clearCatFlag c
          else c := by
      funext c
      by_cases h : c.id = a.id
      · simp [Function.comp, h, clearCatFlag, List.any_cons]
      · have ha : ¬ a.id = c.id := fun hcontra => h hcontra.symm
        simp [Function.comp, h, ha, List.any_cons]
    rw [hfg]

/-- The function the category-reset fold applies pointwise: clear
pages_crawled on rows whose id occurs among the forum's categories. -/
def resetCatFn (db : DB) (f : ForumRow) (c : CategoryRow) : CategoryRow :=
  if (db.categories.filter fun x => x.forum_id = f.id).any
      (fun x => x.id = c.id) then
    clearCatFlag c
  else c

/-- Predicates that look only at a category's id and forum_id cannot tell a
row from its pages_crawled-cleared image. -/
lemma any_resetCatFn (db : DB) (f : ForumRow) (l : List CategoryRow)
    (tcat fid : Nat) :
    ((l.map (resetCatFn db f)).any fun c => c.id = tcat ∧ c.forum_id = fid)
      = l.any fun c => c.id = tcat ∧ c.forum_id = fid := by
  rw [List.any_map]
  congr 1
  funext c
  by_cases h : (db.categories.filter fun x => x.forum_id = f.id).any
      (fun x => x.id = c.id)
  · simp [Function.comp, resetCatFn, clearCatFlag, h]
  · simp [Function.comp, resetCatFn, h]

/-- Normal form of resetCrawledState: the forum flag map, the category flag
map over ids of the forum's categories, and the bulk topic reset over topics
whose category belongs to the forum. -/
lemma resetCrawledState_eq (db : DB) (f : ForumRow) :
    resetCrawledState db f
      = { db with
          forums := db.forums.map (clearForumFlag f.id)
          categories := db.categories.map (resetCatFn db f)
          topics := db.topics.map fun t =>
            if db.categories.any fun c =>
                c.id = t.category_id ∧ c.forum_id = f.id then
              clearTopicFlags t
            else t } := by
  simp only [resetCrawledState, updateForum_catsFalse, findCategoriesByForumId,
    foldl_updateCategory_pagesFalse]
  show ({ db with
      forums := db.forums.map (clearForumFlag f.id)
      categories := db.categories.map (resetCatFn db f)
      topics := db.topics.map fun t =>
        if (db.categories.map (resetCatFn db f)).any fun c =>
            c.id = t.category_id ∧ c.forum_id = f.id then
          clearTopicFlags t
        else t } : DB) = _
  have hair : (fun t =>
        if (db.categories.map (resetCatFn db f)).any fun c =>
            c.id = t.category_id ∧ c.forum_id = f.id then
          clearTopicFlags t
        else t)
      = fun t =>
        if db.categories.any fun c =>
            c.id = t.category_id ∧ c.forum_id = f.id then
          clearTopicFlags t
        else t := by
    funext t
    rw [any_resetCatFn]
  rw [hair]

/-- C7.  Full-crawl reset postcondition and frame: after resetCrawledState on
a forum, that forum row's categories_crawled is false, every Category of the
forum has pages_crawled false, and every Topic whose category belongs to the
forum has posts_crawled false and last_crawled_at cleared; row for row, every
forum row with a different id, every category of a different forum, and every
topic not under the forum are unchanged, and the page and post tables are
untouched.  The category frame needs the schema's primary-key uniqueness of
category ids, because the per-category reset updates rows by id. -/
theorem resetCrawledState_postcondition (db : DB) (f : ForumRow)
    (hids : (db.categories.map CategoryRow.id).Nodup) :
    (∀ fr ∈ (resetCrawledState db f).forums, fr.id = f.id →
        fr.categories_crawled = false) ∧
      (∀ c ∈ (resetCrawledState db f).categories, c.forum_id = f.id →
        c.pages_crawled = false) ∧
      (∀ t ∈ (resetCrawledState db f).topics,
        (∃ c ∈ db.categories, c.id = t.category_id ∧ c.forum_id = f.id) →
        t.posts_crawled = false ∧ t.last_crawled_at = none) ∧
      List.Forall₂ (fun o n => o.id ≠ f.id → n = o)
        db.forums (resetCrawledState db f).forums ∧
      List.Forall₂ (fun o n => o.forum_id ≠ f.id → n = o)
        db.categories (resetCrawledState db f).categories ∧
      List.Forall₂
        (fun o n =>
          (¬ ∃ c ∈ db.categories, c.id = o.category_id ∧ c.forum_id = f.id) →
          n = o)
        db.topics (resetCrawledState db f).topics ∧
      (resetCrawledState db f).pages = db.pages ∧
      (resetCrawledState db f).posts = db.posts := by
  rw [resetCrawledState_eq]
  refine ⟨?_, ?_, ?_, ?_, ?_, ?_, rfl, rfl⟩
  · intro fr hfr hid
    obtain ⟨o, -, rfl⟩ := List.mem_map.mp hfr
    unfold clearForumFlag at hid ⊢
    by_cases ho : o.id = f.id
    · simp [ho]
    · rw [if_neg ho] at hid
      exact absurd hid ho
  · intro c hc hforum
    obtain ⟨o, homem, rfl⟩ := List.mem_map.mp hc
    unfold resetCatFn at hforum ⊢
    by_cases ho : ((db.categories.filter fun x => x.forum_id = f.id).any
        fun x => x.id = o.id) = true
    · simp [ho, clearCatFlag]
    · rw [if_neg ho] at hforum ⊢
      exact absurd
        (List.any_eq_true.mpr
          ⟨o, List.mem_filter.mpr ⟨homem, by simpa using hforum⟩, by simp⟩)
        ho
  · intro t ht hcat
    obtain ⟨o, -, rfl⟩ := List.mem_map.mp ht
    by_cases ho : (db.categories.any fun c =>
        c.id = o.category_id ∧ c.forum_id = f.id) = true
    · rw [if_pos ho]
      exact ⟨rfl, rfl⟩
    · exfalso
      apply ho
      apply List.any_eq_true.mpr
      obtain ⟨c, hcmem, hcid, hcforum⟩ := hcat
      refine ⟨c, hcmem, ?_⟩
      rw [if_neg ho] at hcid
      simp [hcid, hcforum]
  · rw [List.forall₂_map_right_iff]
    refine List.forall₂_same.mpr fun o _ hne => ?_
    unfold clearForumFlag
    exact if_neg hne
  · rw [List.forall₂_map_right_iff]
    refine List.forall₂_same.mpr fun o homem hne => ?_
    unfold resetCatFn
    refine if_neg fun hany => ?_
    obtain ⟨x, hxmem, hxid⟩ := List.any_eq_true.mp hany
    obtain ⟨hxdb, hxforum⟩ := List.mem_filter.mp hxmem
    have hxo : x = o :=
      List.inj_on_of_nodup_map hids hxdb homem (by simpa using hxid)
    exact hne (by simpa [hxo] using hxforum)
  · rw [List.forall₂_map_right_iff]
    refine List.forall₂_same.mpr fun o _ hne => ?_
    refine if_neg fun hany => ?_
    obtain ⟨c, hcmem, hc⟩ := List.any_eq_true.mp hany
    exact hne ⟨c, hcmem, by simpa using hc⟩

/-- Two-forum store used to witness the reset postcondition: every flag set,
every topic stamped, so the reset's effect and frame are both visible. -/
def dbResetW : DB :=
  ⟨[⟨1, "https://a.example", true⟩, ⟨2, "https://b.example", true⟩],
   [⟨1, 10, 1, "/c/a", "ja", true⟩, ⟨2, 20, 2, "/c/b", "jb", true⟩],
   [⟨1, 0, 1, none, "page json"⟩],
   [⟨1, 100, 1, "ea", ⟨"da", some 5⟩, true, some 11⟩,
    ⟨2, 200, 2, "eb", ⟨"db", some 6⟩, true, some 12⟩],
   [⟨1, 1000, 1, ⟨some 1, none, some 3, "p"⟩⟩],
   3, 3, 2, 3, 2⟩

/-- The forum row the reset is applied to in the witness. -/
def forumResetW : ForumRow := ⟨1, "https://a.example", true⟩

theorem resetCrawledState_postcondition_witness :
    (dbResetW.categories.map CategoryRow.id).Nodup ∧
      ((∀ fr ∈ (resetCrawledState dbResetW forumResetW).forums,
          fr.id = forumResetW.id → fr.categories_crawled = false) ∧
        (∀ c ∈ (resetCrawledState dbResetW forumResetW).categories,
          c.forum_id = forumResetW.id → c.pages_crawled = false) ∧
        (∀ t ∈ (resetCrawledState dbResetW forumResetW).topics,
          (∃ c ∈ dbResetW.categories,
            c.id = t.category_id ∧ c.forum_id = forumResetW.id) →
          t.posts_crawled = false ∧ t.last_crawled_at = none) ∧
        List.Forall₂ (fun o n => o.id ≠ forumResetW.id → n = o)
          dbResetW.forums (resetCrawledState dbResetW forumResetW).forums ∧
        List.Forall₂ (fun o n => o.forum_id ≠ forumResetW.id → n = o)
          dbResetW.categories
          (resetCrawledState dbResetW forumResetW).categories ∧
        List.Forall₂
          (fun o n =>
            (¬ ∃ c ∈ dbResetW.categories,
              c.id = o.category_id ∧ c.forum_id = forumResetW.id) →
            n = o)
          dbResetW.topics (resetCrawledState dbResetW forumResetW).topics ∧
        (resetCrawledState dbResetW forumResetW).pages = dbResetW.pages ∧
        (resetCrawledState dbResetW forumResetW).posts = dbResetW.posts) :=
  ⟨by decide, resetCrawledState_postcondition dbResetW forumResetW (by decide)⟩

/-! ### Topic-collection error atomicity (C8) -/

lemma createPost_topics (db : DB) (pd : PostData) :
    (match createPost db pd with
      | .ok r => r.1
      | .error _ => db).topics = db.topics := by
  unfold createPost insertPost
  cases findPostByPostIdAndTopicId db pd.post_id pd.topic_id with
  | none =>
    dsimp only
    by_cases hb : (db.posts.any fun r =>
        r.topic_id = pd.topic_id ∧ r.post_id = pd.post_id) = true
    · rw [if_pos hb]
    · rw [if_neg hb]
  | some ex => rfl

lemma updatePostIfEdited_topics (db : DB) (i : Nat) (j : PostJson) :
    (updatePostIfEdited db i j).1.topics = db.topics := by
  unfold updatePostIfEdited
  cases findPostRowById db i with
  | none => rfl
  | some row =>
    dsimp only
    split <;> rfl

lemma createPostsStep_topics (db : DB) (tid : Nat) (fc : Bool)
    (p : IncomingPost) : (createPostsStep db tid fc p).topics = db.topics := by
  unfold createPostsStep
  cases findPostByPostIdAndTopicId db p.id tid with
  | none =>
    show (match createPost db ⟨p.id, tid, p.json⟩ with
      | .ok r => r.1
      | .error _ => db).topics = db.topics
    exact createPost_topics db ⟨p.id, tid, p.json⟩
  | some ex =>
    show (if fc then db else (updatePostIfEdited db ex.id p.json).1).topics
      = db.topics
    split
    · rfl
    · exact updatePostIfEdited_topics db _ _

lemma foldl_createPostsStep_topics (tid : Nat) (fc : Bool)
    (ps : List IncomingPost) :
    ∀ db : DB,
      (ps.foldl (fun acc p => createPostsStep acc tid fc p) db).topics
        = db.topics := by
  induction ps with
  | nil => intro db; rfl
  | cons a t ih =>
    intro db
    rw [List.foldl_cons, ih (createPostsStep db tid fc a),
      createPostsStep_topics]

lemma createPosts_topics (db : DB) (tid : Nat) (fc : Bool)
    (ps : List IncomingPost) : (createPosts db tid fc ps).1.topics = db.topics :=
  foldl_createPostsStep_topics tid fc ps db

/-- The batch loop never touches the topic table: when it fails, the store it
reports has the same topic rows it started from. -/
lemma crawlTopicLoop_error_topics (remote : Remote) (tid trid : Nat)
    (fc : Bool) :
    ∀ (fuel : Nat) (db : DB) (rem : List Nat) (k : Nat) (e : Err) (db2 : DB)
      (k2 : Nat),
      crawlTopicLoop remote tid trid fc fuel db rem k = .error (e, db2, k2) →
      db2.topics = db.topics := by
  intro fuel
  induction fuel with
  | zero =>
    intro db rem k e db2 k2 h
    unfold crawlTopicLoop at h
    by_cases hr : rem.isEmpty
    · rw [if_pos hr] at h
      cases h
    · rw [if_neg hr] at h
      cases h
      rfl
  | succ fuel ih =>
    intro db rem k e db2 k2 h
    unfold crawlTopicLoop at h
    by_cases hr : rem.isEmpty
    · rw [if_pos hr] at h
      cases h
    · rw [if_neg hr] at h
      dsimp only at h
      cases hf : remote.postsFetch tid (rem.take 20) with
      | error e0 =>
        rw [hf] at h
        cases h
        rfl
      | ok response =>
        rw [hf] at h
        have := ih _ _ _ _ _ _ h
        rw [this, createPosts_topics]

lemma updateTopic_setJson_topics (db : DB) (i : Nat) (doc : TopicDoc) :
    (updateTopic db i ⟨none, some doc, none, none⟩).1.topics
      = db.topics.map fun tr =>
          if tr.id = i then { tr with topic_json := doc } else tr := rfl

/-- C8 (amended).  When collecting a topic's posts fails at any point, the
exception is caught and crawlTopic returns normally with the partial store
and fetch count, the run thus proceeding to the next topic; row for row, no
topic's posts_crawled or last_crawled_at changed — in particular the topic is
not marked done and not stamped.  (The claim's stronger reading — the Topic is
left entirely in its current state — fails: the topic_json snapshot may
already have been overwritten before the failure; see the counterexample.) -/
theorem crawlTopic_failure_leaves_crawl_state
    (remote : Remote) (fuel : Nat) (opts : CrawlerOptions) (db : DB)
    (t : TopicRow) (now : Timestamp) (e : Err) (db2 : DB) (k : Nat)
    (herr : crawlTopicBody remote fuel opts db t now = .error (e, db2, k))
    (ht : t.posts_crawled = false) :
    List.Forall₂
        (fun o n => n.posts_crawled = o.posts_crawled ∧
          n.last_crawled_at = o.last_crawled_at)
        db.topics db2.topics ∧
      crawlTopic remote fuel opts db t now = (db2, k) := by
  constructor
  · unfold crawlTopicBody at herr
    cases hf : remote.topicFetch t.topic_id with
    | error e0 =>
      rw [hf] at herr
      cases herr
      exact List.forall₂_same.mpr fun x _ => ⟨rfl, rfl⟩
    | ok jt =>
      rw [hf] at herr
      dsimp only at herr
      cases hloop : crawlTopicLoop remote t.topic_id t.id opts.fullCrawl fuel
          (createPosts (updateTopic db t.id ⟨none, some jt.doc, none, none⟩).1
            t.id opts.fullCrawl jt.posts).1
          (jt.stream.drop
            (createPosts (updateTopic db t.id ⟨none, some jt.doc, none, none⟩).1
              t.id opts.fullCrawl jt.posts).2) 1 with
      | error r0 =>
        rw [hloop] at herr
        cases herr
        have h2 := crawlTopicLoop_error_topics remote t.topic_id t.id
          opts.fullCrawl fuel _ _ _ _ _ _ hloop
        rw [h2, createPosts_topics, updateTopic_setJson_topics]
        rw [List.forall₂_map_right_iff]
        refine List.forall₂_same.mpr fun o _ => ?_
        by_cases ho : o.id = t.id
        · rw [if_pos ho]
          exact ⟨rfl, rfl⟩
        · rw [if_neg ho]
          exact ⟨rfl, rfl⟩
      | ok r0 =>
        rw [hloop] at herr
        cases herr
  · unfold crawlTopic
    rw [ht]
    show (match crawlTopicBody remote fuel opts db t now with
      | .ok r => r
      | .error (_, db3, fetches) => (db3, fetches)) = (db2, k)
    rw [herr]

/-- Options with neither full-crawl nor since-date. -/
def plainOpts : CrawlerOptions := ⟨false, none⟩

/-- A not-yet-crawled topic whose stored document reads "old". -/
def topicFreshC8 : TopicRow := ⟨1, 5, 1, "ex", ⟨"old", none⟩, false, none⟩

/-- Store holding just that topic. -/
def dbTopicC8 : DB :=
  ⟨[⟨1, "https://forum.example", true⟩],
   [⟨1, 9, 1, "/c/cat", "cat json", true⟩],
   [],
   [topicFreshC8],
   [],
   2, 2, 1, 2, 1⟩

/-- An oracle that serves the topic document (payload "new", manifest of two
posts, empty initial batch) but fails every batch-posts fetch. -/
def remoteTopicC8 : Remote :=
  ⟨.error (.fetchFailed 0),
   fun _ _ _ => .error (.fetchFailed 0),
   fun tid => if tid = 5 then .ok ⟨⟨"new", none⟩, [], [101, 102]⟩
     else .error (.fetchFailed 404),
   fun _ _ => .error (.fetchFailed 503)⟩

/-- C8 (counterexample).  The claim says a failing topic collection leaves
the Topic in its current state.  Here the batch-posts fetch fails — the body
raises and the exception is caught — yet the topic row's stored document has
already been overwritten from "old" to "new" by the updateTopic call that
precedes post collection: the Topic is not left in its current state. -/
theorem crawlTopic_failure_overwrites_topic_json :
    crawlTopicBody remoteTopicC8 5 plainOpts dbTopicC8 topicFreshC8 77
        = .error (.fetchFailed 503,
            (crawlTopic remoteTopicC8 5 plainOpts dbTopicC8 topicFreshC8 77).1,
            2) ∧
      (crawlTopic remoteTopicC8 5 plainOpts dbTopicC8
          topicFreshC8 77).1.topics.map TopicRow.topic_json = [⟨"new", none⟩] ∧
      dbTopicC8.topics.map TopicRow.topic_json = [⟨"old", none⟩] := by
  refine ⟨rfl, rfl, rfl⟩

theorem crawlTopic_failure_leaves_crawl_state_witness :
    crawlTopicBody remoteTopicC8 5 plainOpts dbTopicC8 topicFreshC8 77
        = .error (.fetchFailed 503,
            (crawlTopic remoteTopicC8 5 plainOpts dbTopicC8 topicFreshC8 77).1,
            2) ∧
      topicFreshC8.posts_crawled = false ∧
      (List.Forall₂
          (fun o n => n.posts_crawled = o.posts_crawled ∧
            n.last_crawled_at = o.last_crawled_at)
          dbTopicC8.topics
          (crawlTopic remoteTopicC8 5 plainOpts dbTopicC8
            topicFreshC8 77).1.topics ∧
        crawlTopic remoteTopicC8 5 plainOpts dbTopicC8 topicFreshC8 77
          = ((crawlTopic remoteTopicC8 5 plainOpts dbTopicC8
              topicFreshC8 77).1, 2)) :=
  ⟨rfl, rfl,
   crawlTopic_failure_leaves_crawl_state remoteTopicC8 5 plainOpts dbTopicC8
     topicFreshC8 77 (.fetchFailed 503)
     (crawlTopic remoteTopicC8 5 plainOpts dbTopicC8 topicFreshC8 77).1 2
     rfl rfl⟩

/-! ### Failure isolation (C4) -/

/-- First category of the abort scenario (not yet pages-done). -/
def catFailA : CategoryRow := ⟨1, 10, 1, "/c/a", "ja", false⟩

/-- Second category, the sibling that should have been processed next. -/
def catFailB : CategoryRow := ⟨2, 20, 1, "/c/b", "jb", false⟩

/-- Store with one forum already categories-done and the two categories. -/
def dbTwoCats : DB :=
  ⟨[⟨1, "https://forum.example", true⟩], [catFailA, catFailB], [], [], [],
   2, 3, 1, 1, 1⟩

/-- The forum row of that store (categories already discovered). -/
def forumDoneC4 : ForumRow := ⟨1, "https://forum.example", true⟩

/-- The same forum before discovery (categories_crawled still false). -/
def forumFreshC4 : ForumRow := ⟨1, "https://forum.example", false⟩

/-- An oracle on which every endpoint fails with HTTP 500. -/
def remoteAllFail : Remote :=
  ⟨.error (.fetchFailed 500),
   fun _ _ _ => .error (.fetchFailed 500),
   fun _ => .error (.fetchFailed 500),
   fun _ _ => .error (.fetchFailed 500)⟩

/-- C4 (counterexample).  The claim says a failure while processing one
category is caught and logged and the run continues with the next sibling.
Here discovery is already done and the first category's page fetch fails:
crawlForum propagates the error and aborts the whole run with the store
unchanged — the second category (and the topic pass) are never reached,
because the per-category loop in crawlForum has no try/catch. -/
theorem crawlForum_aborts_on_category_failure :
    crawlForum remoteAllFail 3 plainOpts dbTwoCats forumDoneC4 0
      = .error (.fetchFailed 500, dbTwoCats) := by rfl

/-- C4 (amended).  Failure isolation holds at the topic level only: whatever
the oracle does, the per-category topic loop hands every non-skipped topic to
crawlTopic (whose internal catch makes it total), so one topic's failure
never removes its siblings from the trace; but a failure raised while
processing a category propagates out of the per-category loop and aborts the
run, and so does a category-listing failure during initial discovery on a
fresh forum. -/
theorem failure_isolation_amended :
    (∀ (remote : Remote) (fuel : Nat) (opts : CrawlerOptions) (now : Timestamp)
        (ts : List TopicRow) (acc : DB × List Nat),
      (crawlTopicsOfList remote fuel opts now ts acc).2
        = acc.2 ++ (ts.filter fun t => !shouldSkipTopic opts t).map TopicRow.id) ∧
      (∀ (remote : Remote) (fuel : Nat) (opts : CrawlerOptions) (db : DB)
          (c : CategoryRow) (rest : List CategoryRow) (e : Err) (db2 : DB)
          (tr : List Nat),
        crawlCategory remote fuel opts db c = .error (e, db2, tr) →
        crawlCategoriesLoop remote fuel opts (c :: rest) db
          = .error (e, db2)) ∧
      (∀ (remote : Remote) (fuel : Nat) (opts : CrawlerOptions) (db : DB)
          (forum : ForumRow) (now : Timestamp) (e : Err),
        forum.categories_crawled = false →
        remote.categoriesFetch = .error e →
        crawlForum remote fuel opts db forum now = .error (e, db)) := by
  refine ⟨?_, ?_, ?_⟩
  · intro remote fuel opts now ts
    induction ts with
    | nil => intro acc; simp [crawlTopicsOfList]
    | cons t rest ih =>
      intro acc
      by_cases h : shouldSkipTopic opts t = true
      · simp [crawlTopicsOfList, h, ih]
      · have hb : shouldSkipTopic opts t = false := by
          cases hx : shouldSkipTopic opts t
          · rfl
          · exact absurd hx h
        simp [crawlTopicsOfList, hb, ih]
  · intro remote fuel opts db c rest e db2 tr herr
    simp [crawlCategoriesLoop, herr]
  · intro remote fuel opts db forum now e hflag hfetch
    simp [crawlForum, crawlCategoriesPhase, hflag, hfetch]

/-- A never-crawled topic used to instantiate the isolation witness. -/
def topicFreshC4 : TopicRow := ⟨1, 7, 1, "ex", ⟨"", none⟩, false, none⟩

theorem failure_isolation_amended_witness :
    ((crawlTopicsOfList remoteAllFail 2 plainOpts 0 [topicFreshC4]
          (dbTwoCats, [])).2
        = [] ++ (([topicFreshC4].filter fun t =>
            !shouldSkipTopic plainOpts t).map TopicRow.id)) ∧
      crawlCategory remoteAllFail 3 plainOpts dbTwoCats catFailA
        = .error (.fetchFailed 500, dbTwoCats, [0]) ∧
      crawlCategoriesLoop remoteAllFail 3 plainOpts [catFailA, catFailB]
          dbTwoCats
        = .error (.fetchFailed 500, dbTwoCats) ∧
      forumFreshC4.categories_crawled = false ∧
      remoteAllFail.categoriesFetch = .error (.fetchFailed 500) ∧
      crawlForum remoteAllFail 3 plainOpts dbTwoCats forumFreshC4 0
        = .error (.fetchFailed 500, dbTwoCats) :=
  ⟨failure_isolation_amended.1 remoteAllFail 2 plainOpts 0 [topicFreshC4]
      (dbTwoCats, []),
   rfl,
   failure_isolation_amended.2.1 remoteAllFail 3 plainOpts dbTwoCats catFailA
     [catFailB] (.fetchFailed 500) dbTwoCats [0] rfl,
   rfl, rfl,
   failure_isolation_amended.2.2 remoteAllFail 3 plainOpts dbTwoCats
     forumFreshC4 0 (.fetchFailed 500) rfl rfl⟩

/-! ### Pagination termination (C5) -/

lemma getLastPageByCategory_none (db : DB) (cid : Nat)
    (h : ∀ p ∈ db.pages, ¬ p.category_id = cid) :
    getLastPageByCategory db cid = none := by
  unfold getLastPageByCategory
  have hf : db.pages.filter (fun p => p.category_id = cid) = [] :=
    List.filter_eq_nil_iff.mpr fun a ha => by simpa using h a ha
  rw [hf]
  rfl

/-- On a store holding no page with the given (category, page number) key,
createPage inserts and returns the fresh row. -/
lemma createPage_fresh (db : DB) (crid j : Nat) (c : Option String)
    (raw : String)
    (habs : ∀ p ∈ db.pages, p.category_id = crid → ¬ p.page_id = j) :
    createPage db ⟨j, crid, c, raw⟩
      = .ok ({ db with
                 pages := db.pages ++ [⟨db.page_seq, j, crid, c, raw⟩],
                 page_seq := db.page_seq + 1 },
             ⟨db.page_seq, j, crid, c, raw⟩) := by
  have hnone : ∀ p ∈ db.pages, ¬ (p.category_id = crid ∧ p.page_id = j) :=
    fun p hp hc => habs p hp hc.1 hc.2
  unfold createPage findPageByCategoryIdAndPageId insertPage
  dsimp only
  have hfil : db.pages.filter (fun p => p.category_id = crid ∧ p.page_id = j)
      = [] :=
    List.filter_eq_nil_iff.mpr fun a ha => by simpa using hnone a ha
  have hany : (db.pages.any fun r => r.category_id = crid ∧ r.page_id = j)
      = false :=
    List.any_eq_false.mpr fun x hx => by simpa using hnone x hx
  rw [hfil, hany]
  rfl

/-- The listed-topics pass always succeeds (its create is guarded by the
correct-key existence check) and never touches the page table. -/
lemma createListedTopics_ok (crid : Nat) :
    ∀ (l : List RemoteTopicRef) (d : DB),
      ∃ d2, createListedTopics d crid l = .ok d2 ∧ d2.pages = d.pages := by
  intro l
  induction l with
  | nil => intro d; exact ⟨d, rfl, rfl⟩
  | cons tr rest ih =>
    intro d
    unfold createListedTopics
    cases h : findTopicByCategoryIdAndTopicId d crid tr.id with
    | some ex => exact ih d
    | none =>
      unfold createTopic
      dsimp only
      cases h2 : findTopicByCategoryIdAndTopicId d crid crid with
      | some ex => exact ih d
      | none =>
        have hkey : ∀ x ∈ d.topics,
            ¬ (x.category_id = crid ∧ x.topic_id = tr.id) := by
          intro x hx hq
          have hfil : d.topics.filter
              (fun t => t.category_id = crid ∧ t.topic_id = tr.id) = [] := by
            have h3 := h
            unfold findTopicByCategoryIdAndTopicId at h3
            exact List.head?_eq_none_iff.mp h3
          have hmem : x ∈ d.topics.filter
              (fun t => t.category_id = crid ∧ t.topic_id = tr.id) := by
            rw [List.mem_filter]
            refine ⟨hx, ?_⟩
            simpa using hq
          rw [hfil] at hmem
          cases hmem
        have hany : (d.topics.any fun r =>
            r.category_id = crid ∧ r.topic_id = tr.id) = false :=
          List.any_eq_false.mpr fun x hx => by simpa using hkey x hx
        unfold insertTopic
        rw [hany]
        dsimp only
        obtain ⟨d2, hrec, hpg⟩ := ih
          { d with
              topics := d.topics ++
                [⟨d.topic_seq, tr.id, crid, tr.raw, ⟨"", none⟩, false, none⟩],
              topic_seq := d.topic_seq + 1 }
        exact ⟨d2, hrec, hpg⟩

/-- Walking the pagination loop: with pages j .. n-1 still to fetch, the
cursor chain intact up to the final null cursor, and a consistent loop state
(the next page number to request is j), the loop fetches exactly pages
j, j+1, ..., n-1 in that order and stops. -/
lemma crawlCategoryLoop_walks (remote : Remote) (s : Option Timestamp)
    (cid crid n : Nat) (pages : Nat → RemotePage)
    (hok : ∀ i, i < n → remote.pageFetch s cid i = .ok (pages i))
    (hcursor : ∀ i, i + 1 < n →
      jsCursorOrNull (pages i).more_topics_url ≠ none)
    (hlast : jsCursorOrNull (pages (n - 1)).more_topics_url = none) :
    ∀ (m j : Nat) (db1 : DB) (fuel : Nat) (lastPage : Option PageRow)
      (trace : List Nat),
      j + m = n → 0 < m →
      (lastPage = none → j = 0) →
      (∀ lp, lastPage = some lp → lp.page_id + 1 = j ∧
        lp.more_topics_url = jsCursorOrNull (pages lp.page_id).more_topics_url) →
      (∀ p ∈ db1.pages, p.category_id = crid → p.page_id < j) →
      m ≤ fuel →
      ∃ db2, crawlCategoryLoop remote s cid crid fuel db1 lastPage trace
        = .ok (db2, trace ++ List.range' j m) := by
  intro m
  induction m with
  | zero =>
    intro j db1 fuel lastPage trace hjm hpos
    exact absurd hpos (lt_irrefl 0)
  | succ m ih =>
    intro j db1 fuel lastPage trace hjm hpos hnone hsome habs hfuel
    cases fuel with
    | zero => omega
    | succ f =>
      have hjn : j < n := by omega
      have hstep : nextPageNumber lastPage = some j := by
        cases lastPage with
        | none => rw [hnone rfl]; rfl
        | some lp =>
          obtain ⟨hpk, hpm⟩ := hsome lp rfl
          have hne : lp.more_topics_url ≠ none := by
            rw [hpm]
            exact hcursor lp.page_id (by omega)
          unfold nextPageNumber
          dsimp only
          rw [if_neg hne, hpk]
      unfold crawlCategoryLoop
      rw [hstep]
      dsimp only
      rw [hok j hjn]
      dsimp only
      have habs2 : ∀ p ∈ db1.pages, p.category_id = crid → ¬ p.page_id = j :=
        fun p hp hc he => by have := habs p hp hc; omega
      rw [createPage_fresh db1 crid j
        (jsCursorOrNull (pages j).more_topics_url) (pages j).raw habs2]
      dsimp only
      obtain ⟨d2, hct, hpgs⟩ := createListedTopics_ok crid (pages j).topics
        { db1 with
            pages := db1.pages ++
              [⟨db1.page_seq, j, crid,
                jsCursorOrNull (pages j).more_topics_url, (pages j).raw⟩],
            page_seq := db1.page_seq + 1 }
      rw [hct]
      dsimp only
      by_cases hm : m = 0
      · subst hm
        have hj2 : j = n - 1 := by omega
        have hmnone : jsCursorOrNull (pages j).more_topics_url = none := by
          rw [hj2]; exact hlast
        rw [if_pos hmnone]
        exact ⟨d2, by rw [List.range'_one]⟩
      · have hj1 : j + 1 < n := by omega
        have hmne : jsCursorOrNull (pages j).more_topics_url ≠ none :=
          hcursor j hj1
        rw [if_neg hmne]
        obtain ⟨db2, hloop⟩ := ih (j + 1) d2 f
          (some ⟨db1.page_seq, j, crid,
            jsCursorOrNull (pages j).more_topics_url, (pages j).raw⟩)
          (trace ++ [j]) (by omega) (by omega)
          (fun hcontra => by cases hcontra)
          (fun lp hlp => by cases hlp; exact ⟨rfl, rfl⟩)
          (by
            intro p hp hc
            rw [hpgs] at hp
            rcases List.mem_append.mp hp with hold | hnew
            · have := habs p hold hc
              omega
            · have hpeq := List.mem_singleton.mp hnew
              subst hpeq
              show j < j + 1
              omega)
          (by omega)
        rw [hloop]
        refine ⟨db2, ?_⟩
        rw [List.range'_succ]
        simp [List.append_assoc]

/-- C5.  Pagination termination: for a category not yet pages-done with no
stored pages, when the remote listing is a finite sequence of n pages in
which exactly the last one's "more topics" cursor is null, the walker issues
exactly one fetch per page, in strictly increasing page-number order
0, 1, ..., n-1 (the fetch trace is precisely List.range n), and then stops,
completing with the category marked pages-done. -/
theorem crawlCategory_fetches_each_page_once
    (remote : Remote) (opts : CrawlerOptions) (db : DB) (cat : CategoryRow)
    (fuel n : Nat) (pages : Nat → RemotePage)
    (hcat : cat.pages_crawled = false)
    (hfresh : ∀ p ∈ db.pages, ¬ p.category_id = cat.id)
    (hok : ∀ i, i < n →
      remote.pageFetch (effectiveSinceDate opts db cat.forum_id)
        cat.category_id i = .ok (pages i))
    (hcursor : ∀ i, i + 1 < n →
      jsCursorOrNull (pages i).more_topics_url ≠ none)
    (hlast : jsCursorOrNull (pages (n - 1)).more_topics_url = none)
    (hn : 0 < n) (hfuel : n ≤ fuel) :
    ∃ db2, crawlCategory remote fuel opts db cat
      = .ok (db2, List.range n) := by
  obtain ⟨db2, hloop⟩ := crawlCategoryLoop_walks remote
    (effectiveSinceDate opts db cat.forum_id) cat.category_id cat.id n pages
    hok hcursor hlast n 0 db fuel none [] (by omega) hn
    (fun _ => rfl) (fun lp hlp => by cases hlp)
    (fun p hp hc => absurd hc (hfresh p hp)) hfuel
  refine ⟨(updateCategory db2 cat.id ⟨none, none, some true⟩).1, ?_⟩
  unfold crawlCategory
  rw [hcat]
  simp only [Bool.not_false, Bool.true_or, if_true]
  rw [getLastPageByCategory_none db cat.id hfresh, hloop]
  simp [List.range_eq_range']

/-- The remote pages of the pagination witness: page 0 carries a cursor,
page 1 (the last) does not. -/
def pagesW : Nat → RemotePage := fun i =>
  if i = 0 then ⟨some "/c/cat?page=1", [⟨31, "t31"⟩], "p0"⟩
  else ⟨none, [⟨32, "t32"⟩], "p1"⟩

/-- Oracle serving those listing pages. -/
def remotePagesW : Remote :=
  ⟨.error (.fetchFailed 0),
   fun _ _ i => .ok (pagesW i),
   fun _ => .error (.fetchFailed 0),
   fun _ _ => .ok []⟩

/-- A category not yet pages-done. -/
def catPagesW : CategoryRow := ⟨1, 10, 1, "/c/cat", "jc", false⟩

/-- Store holding the forum and that category, with no pages yet. -/
def dbPagesW : DB :=
  ⟨[⟨1, "https://forum.example", true⟩], [catPagesW], [], [], [],
   2, 2, 1, 1, 1⟩

theorem crawlCategory_fetches_each_page_once_witness :
    catPagesW.pages_crawled = false ∧
      (∀ p ∈ dbPagesW.pages, ¬ p.category_id = catPagesW.id) ∧
      (∀ i, i < 2 →
        remotePagesW.pageFetch
          (effectiveSinceDate plainOpts dbPagesW catPagesW.forum_id)
          catPagesW.category_id i = .ok (pagesW i)) ∧
      (∀ i, i + 1 < 2 → jsCursorOrNull (pagesW i).more_topics_url ≠ none) ∧
      jsCursorOrNull (pagesW (2 - 1)).more_topics_url = none ∧
      0 < 2 ∧ 2 ≤ 3 ∧
      ∃ db2, crawlCategory remotePagesW 3 plainOpts dbPagesW catPagesW
        = .ok (db2, List.range 2) :=
  by
  refine ⟨rfl, ?_, ?_, ?_, rfl, by decide, by decide, ?_⟩
  · intro p hp
    cases hp
  · intro i _
    rfl
  · intro i hi
    have h0 : i = 0 := by omega
    subst h0
    decide
  · exact crawlCategory_fetches_each_page_once remotePagesW plainOpts dbPagesW
      catPagesW 3 2 pagesW rfl (fun p hp => by cases hp) (fun i _ => rfl)
      (fun i hi => by
        have h0 : i = 0 := by omega
        subst h0
        decide)
      rfl (by decide) (by decide)

end DiscourseCrawler
